import Mathlib

/-!
Verification of the conversational-bot core of `bot.py`.

The SQLite-backed `DatabaseManager` is embedded as a pure state type `DB`
(each table a list of rows), the per-user `context.user_data` dictionary as
the record `UserData` of the boolean flags the handlers actually set, and
the message router `handle_message` together with its handler functions as
state-passing Lean functions returning the new state plus the list of
outbound payloads.  `REAL` (float) columns are idealised as exact integer amounts;
timestamps, random draws and per-recipient delivery outcomes are supplied by
an explicit environment `Env`.
-/

namespace TgBot

/-- Outbound payloads.  One constructor per distinct reply the handlers can
produce; data that the claims inspect (statistics counts, ids, the broadcast
delivery count) is carried as arguments. -/
inductive Payload where
  | banned
  | profileView
  | profileError
  | shopMenu
  | walletView
  | gamesMenu
  | newsView
  | referralView
  | settingsMenu
  | supportMenu
  | helpView
  | adminWelcome
  | permissionDenied
  | mainMenu
  | adminStats (total_users : Nat) (total_orders : Nat) (open_tickets : Nat)
  | adminUsersMenu
  | broadcastPrompt
  | adminSettingsMenu
  | adminProductsMenu
  | adminTicketsMenu
  | addAdminPrompt
  | removeAdminPrompt
  | categoryView (category : String)
  | diceResult (value : Nat) (points : Int)
  | dartResult (value : Nat) (points : Int)
  | slotResult (value : Nat) (points : Int)
  | triviaQuestion
  | leaderboardView
  | dailyReward (points : Int)
  | ticketPrompt
  | myTicketsView
  | cancelled
  | adminPromoted (uid : Int)
  | invalidId
  | ticketCreated (tid : Int)
  | broadcastStatus
  | broadcastDone (sent : Nat)
  | unrecognized
  | internalError
deriving DecidableEq

/-- Row of the `users` table (the columns the core logic reads or writes;
`REAL balance` idealised as exact `Int` amounts). -/
structure User where
  user_id : Int
  is_banned : Bool
  balance : Int
  points : Int
  message_count : Nat
  last_activity : Nat
deriving DecidableEq

/-- Row of the `admins` table. -/
structure Admin where
  admin_id : Int
  added_by : Int
  level : Nat
deriving DecidableEq

/-- Row of the `products` table. -/
structure Product where
  product_id : Int
  name : String
  price : Int
  stock : Int
  category : String
  is_active : Bool
deriving DecidableEq

/-- Row of the `orders` table (`status` defaults to `pending` on insert). -/
structure Order where
  order_id : Int
  user_id : Int
  product_id : Int
  quantity : Int
  total_price : Int
  status : String
deriving DecidableEq

/-- Row of the `tickets` table (`status` defaults to `open` on insert). -/
structure Ticket where
  ticket_id : Int
  user_id : Int
  subject : String
  message : String
  status : String
deriving DecidableEq

/-- Row of the `transactions` table (the `type` column is named `kind`
here). -/
structure Transaction where
  user_id : Int
  kind : String
  amount : Int
  description : String
deriving DecidableEq

/-- The whole persistent store: one list per table, in insertion order. -/
structure DB where
  users : List User
  admins : List Admin
  products : List Product
  orders : List Order
  tickets : List Ticket
  transactions : List Transaction
deriving DecidableEq

/-- `context.user_data` restricted to the keys the program ever sets, plus
`awaiting_input`, the key the router tests at the end of its chain.  A key
absent from the Python dict reads as falsy, so all fields start `false`. -/
structure UserData where
  awaiting_broadcast : Bool
  awaiting_admin_id : Bool
  removing_admin : Bool
  creating_ticket : Bool
  awaiting_input : Bool
deriving DecidableEq

def UserData.empty : UserData := ⟨false, false, false, false, false⟩

/-- External inputs: the clock (`CURRENT_TIMESTAMP` ticks), the dice values
the transport returns for the three dice games, the random daily reward, and
the per-recipient delivery outcome used by the broadcast loop. -/
structure Env where
  now : Nat
  dice : Nat
  dart : Nat
  slot : Nat
  daily : Int
  deliver : Int → Bool

/-- Result of running a handler: the updated store, the updated per-user
session data, and the outbound payloads in emission order. -/
structure Res where
  db : DB
  ud : UserData
  out : List Payload
deriving DecidableEq

/-! ### DatabaseManager operations -/

/-- `SELECT * FROM users WHERE user_id = ?` (first matching row). -/
def get_user (db : DB) (uid : Int) : Option User :=
  db.users.find? (fun u => u.user_id == uid)

/-- `UPDATE <table> ... WHERE key = ?`: apply `g` to every matching row. -/
def updateUser (db : DB) (uid : Int) (g : User → User) : DB :=
  { db with users := db.users.map (fun v => if v.user_id = uid then g v else v) }

/-- `update_user_activity`: refresh `last_activity` and increment
`message_count` for the user, as the router does on every message. -/
def update_user_activity (db : DB) (uid : Int) (now : Nat) : DB :=
  updateUser db uid (fun v => { v with last_activity := now, message_count := v.message_count + 1 })

/-- `is_admin`: membership in the `admins` table. -/
def is_admin (db : DB) (uid : Int) : Bool :=
  db.admins.any (fun a => a.admin_id == uid)

/-- `add_admin`: `INSERT OR REPLACE INTO admins` (the source calls it with
the default `level = 1` from `handle_user_input`). -/
def add_admin (db : DB) (aid addedBy : Int) (level : Nat) : DB :=
  { db with admins := db.admins.filter (fun a => a.admin_id != aid) ++ [⟨aid, addedBy, level⟩] }

/-- `remove_admin`: `DELETE FROM admins WHERE admin_id = ?`. -/
def remove_admin (db : DB) (aid : Int) : DB :=
  { db with admins := db.admins.filter (fun a => a.admin_id != aid) }

/-- `get_all_users(limit, offset=0)`: `ORDER BY join_date DESC LIMIT ?`.
The list order of `DB.users` models the query order. -/
def get_all_users (db : DB) (limit : Nat) : List User :=
  db.users.take limit

def get_users_count (db : DB) : Nat := db.users.length

/-- `SELECT * FROM products WHERE product_id = ?`. -/
def get_product (db : DB) (pid : Int) : Option Product :=
  db.products.find? (fun p => p.product_id == pid)

/-- `UPDATE products ... WHERE product_id = ?`. -/
def updateProduct (db : DB) (pid : Int) (g : Product → Product) : DB :=
  { db with products := db.products.map (fun q => if q.product_id = pid then g q else q) }

/-- `create_order`: read the product; if missing or `stock < quantity`
return `-1` with no writes; otherwise insert the order with
`total_price = price * quantity` and decrement the stock.  `lastrowid` is
modelled as one past the current number of order rows. -/
def create_order (db : DB) (uid pid : Int) (quantity : Int) : Int × DB :=
  match get_product db pid with
  | none => (-1, db)
  | some p =>
    if p.stock < quantity then (-1, db)
    else
      let total_price := p.price * quantity
      let order_id := (db.orders.length : Int) + 1
      let db1 := { db with orders := db.orders ++ [⟨order_id, uid, pid, quantity, total_price, ("pending")⟩] }
      (order_id, updateProduct db1 pid (fun q => { q with stock := q.stock - quantity }))

/-- `update_balance`: read the balance (`SELECT balance ... WHERE user_id=?`,
modelled by `get_user`); `False` if the user is missing or the new balance
would be negative; otherwise write the new balance and append one
transaction row whose kind comes from the sign of `amount` and whose stored
amount is `abs(amount)`, inside the same `with`-transaction. -/
def update_balance (db : DB) (uid : Int) (amount : Int) : Bool × DB :=
  match get_user db uid with
  | none => (false, db)
  | some u =>
    if u.balance + amount < 0 then (false, db)
    else
      let db1 := updateUser db uid (fun v => { v with balance := u.balance + amount })
      (true, { db1 with transactions :=
        db1.transactions ++ [⟨uid, (if 0 < amount then ("credit") else ("debit")), |amount|, ("Balance update")⟩] })

/-- `add_points`: `UPDATE users SET points = points + ?` — unconditional. -/
def add_points (db : DB) (uid : Int) (pts : Int) : DB :=
  updateUser db uid (fun v => { v with points := v.points + pts })

/-- `create_ticket`: insert with `status` defaulting to `open`; `lastrowid`
modelled as one past the current number of ticket rows. -/
def create_ticket (db : DB) (uid : Int) (subject message : String) : Int × DB :=
  let tid := (db.tickets.length : Int) + 1
  (tid, { db with tickets := db.tickets ++ [⟨tid, uid, subject, message, ("open")⟩] })

/-- `generate_referral_code` builds `f"REF{user_id}{suffix}"` where the
suffix is `random.choices(ascii_uppercase + digits, k=6)`; the random suffix
is passed in explicitly.  `intDecimal` renders the id the way the f-string
does. -/
def decimalDigitChar (d : Nat) : Char := Char.ofNat (48 + d)

/-- Decimal rendering of a natural number (big-endian digit characters). -/
def natDecimal (n : Nat) : List Char :=
  if n = 0 then [('0' : Char)] else ((Nat.digits 10 n).map decimalDigitChar).reverse

/-- Decimal rendering of an integer, with a leading minus sign if negative. -/
def intDecimal (i : Int) : List Char :=
  if i < 0 then ('-' : Char) :: natDecimal i.natAbs else natDecimal i.natAbs

def generate_referral_code (user_id : Int) (suffix : List Char) : List Char :=
  ("REF").data ++ intDecimal user_id ++ suffix

/-! ### Handlers

Each `async def handler(update, context)` becomes a function of the store,
the caller's session data, the caller id and (where the source consults the
transport or the clock) the environment, returning a `Res`. -/

def show_profile (db : DB) (ud : UserData) (uid : Int) : Res :=
  match get_user db uid with
  | none => ⟨db, ud, [Payload.profileError]⟩
  | some _ => ⟨db, ud, [Payload.profileView]⟩

def show_shop (db : DB) (ud : UserData) : Res := ⟨db, ud, [Payload.shopMenu]⟩

/-- `show_wallet` reads the user row unconditionally (`user['balance']`);
a missing row would raise, modelled as `internalError`. -/
def show_wallet (db : DB) (ud : UserData) (uid : Int) : Res :=
  match get_user db uid with
  | none => ⟨db, ud, [Payload.internalError]⟩
  | some _ => ⟨db, ud, [Payload.walletView]⟩

def show_games (db : DB) (ud : UserData) : Res := ⟨db, ud, [Payload.gamesMenu]⟩

def show_news (db : DB) (ud : UserData) : Res := ⟨db, ud, [Payload.newsView]⟩

def show_referral (db : DB) (ud : UserData) (uid : Int) : Res :=
  match get_user db uid with
  | none => ⟨db, ud, [Payload.internalError]⟩
  | some _ => ⟨db, ud, [Payload.referralView]⟩

def show_settings (db : DB) (ud : UserData) : Res := ⟨db, ud, [Payload.settingsMenu]⟩

def show_support (db : DB) (ud : UserData) : Res := ⟨db, ud, [Payload.supportMenu]⟩

def show_help (db : DB) (ud : UserData) : Res := ⟨db, ud, [Payload.helpView]⟩

def back_to_main (db : DB) (ud : UserData) : Res := ⟨db, ud, [Payload.mainMenu]⟩

/-- `show_admin_panel` is the only admin-area handler that checks
`is_admin` before acting. -/
def show_admin_panel (db : DB) (ud : UserData) (uid : Int) : Res :=
  if is_admin db uid then ⟨db, ud, [Payload.adminWelcome]⟩
  else ⟨db, ud, [Payload.permissionDenied]⟩

/-- `admin_stats` computes and sends the statistics with no `is_admin`
check.  (The join-date based `today_users` figure depends on calendar
dates, which are not modelled.) -/
def admin_stats (db : DB) (ud : UserData) : Res :=
  ⟨db, ud, [Payload.adminStats (get_users_count db) db.orders.length
      ((db.tickets.filter (fun t => t.status == "open")).length)]⟩

/-- `admin_broadcast_start` arms `awaiting_broadcast` — no `is_admin`
check. -/
def admin_broadcast_start (db : DB) (ud : UserData) : Res :=
  ⟨db, { ud with awaiting_broadcast := true }, [Payload.broadcastPrompt]⟩

def admin_users (db : DB) (ud : UserData) : Res := ⟨db, ud, [Payload.adminUsersMenu]⟩

def admin_settings (db : DB) (ud : UserData) : Res := ⟨db, ud, [Payload.adminSettingsMenu]⟩

def admin_products (db : DB) (ud : UserData) : Res := ⟨db, ud, [Payload.adminProductsMenu]⟩

def admin_tickets (db : DB) (ud : UserData) : Res := ⟨db, ud, [Payload.adminTicketsMenu]⟩

/-- `admin_add_start` arms `awaiting_admin_id` — no `is_admin` check. -/
def admin_add_start (db : DB) (ud : UserData) : Res :=
  ⟨db, { ud with awaiting_admin_id := true }, [Payload.addAdminPrompt]⟩

/-- `admin_remove_start` arms `removing_admin` — no `is_admin` check. -/
def admin_remove_start (db : DB) (ud : UserData) : Res :=
  ⟨db, { ud with removing_admin := true }, [Payload.removeAdminPrompt]⟩

def show_category (db : DB) (ud : UserData) (category : String) : Res :=
  ⟨db, ud, [Payload.categoryView category]⟩

def play_dice (db : DB) (ud : UserData) (uid : Int) (env : Env) : Res :=
  let value := env.dice
  let points := (value : Int) * 5
  ⟨add_points db uid points, ud, [Payload.diceResult value points]⟩

def play_dart (db : DB) (ud : UserData) (uid : Int) (env : Env) : Res :=
  let value := env.dart
  let points : Int := if value = 6 then 100 else (value : Int) * 10
  ⟨add_points db uid points, ud, [Payload.dartResult value points]⟩

def play_slots (db : DB) (ud : UserData) (uid : Int) (env : Env) : Res :=
  let value := env.slot
  let points : Int := if value = 64 then 500 else if value = 1 ∨ value = 22 ∨ value = 43 then 100 else 10
  ⟨add_points db uid points, ud, [Payload.slotResult value points]⟩

def play_trivia (db : DB) (ud : UserData) : Res := ⟨db, ud, [Payload.triviaQuestion]⟩

def show_leaderboard (db : DB) (ud : UserData) : Res := ⟨db, ud, [Payload.leaderboardView]⟩

def claim_daily (db : DB) (ud : UserData) (uid : Int) (env : Env) : Res :=
  ⟨add_points db uid env.daily, ud, [Payload.dailyReward env.daily]⟩

def create_ticket_start (db : DB) (ud : UserData) : Res :=
  ⟨db, { ud with creating_ticket := true }, [Payload.ticketPrompt]⟩

def show_my_tickets (db : DB) (ud : UserData) : Res := ⟨db, ud, [Payload.myTicketsView]⟩

/-- `cancel_operation`: `context.user_data.clear()`. -/
def cancel_operation (db : DB) (_ud : UserData) : Res :=
  ⟨db, UserData.empty, [Payload.cancelled]⟩

/-! ### Broadcast fan-out -/

/-- Everything the broadcast loop produces: the ids delivery was attempted
to, in order; the success counter `sent`; and the payloads (the initial
status message and its final edit, which reports only `sent`). -/
structure BroadcastRun where
  attempted : List Int
  sent : Nat
  out : List Payload
deriving DecidableEq

/-- One iteration of the `for user in users` loop: try to send (outcome from
the delivery oracle), increment `sent` on success, swallow failure. -/
def bstep (f : Int → Bool) (acc : List Int × Nat) (u : User) : List Int × Nat :=
  (acc.1 ++ [u.user_id], if f u.user_id then acc.2 + 1 else acc.2)

/-- `process_broadcast`: page of up to 5000 users, sequential delivery,
failures swallowed, final report carries the `sent` counter. -/
def process_broadcast (db : DB) (env : Env) (_text : String) : BroadcastRun :=
  let users := get_all_users db 5000
  let r := users.foldl (bstep env.deliver) (([] : List Int), 0)
  ⟨r.1, r.2, [Payload.broadcastStatus, Payload.broadcastDone r.2]⟩

/-! ### Input-state consumption and the router -/

/-- Digit-string evaluation used by `int_of_text`: `none` unless the list is
a nonempty run of decimal digits. -/
def natFromDigits (l : List Char) : Option Nat :=
  match l with
  | [] => none
  | _ => l.foldl (fun acc c =>
      acc.bind (fun n => if 48 ≤ c.toNat ∧ c.toNat ≤ 57 then some (n * 10 + (c.toNat - 48)) else none))
      (some 0)

/-- Python `int(text)` as used inside the `try` of `handle_user_input`:
an optional sign followed by decimal digits (surrounding whitespace and
digit-group underscores, which CPython also tolerates, are not modelled;
`none` models the `ValueError` caught by the bare `except`). -/
def int_of_text (s : String) : Option Int :=
  match s.data with
  | ('-' : Char) :: rest => (natFromDigits rest).map (fun n => -(n : Int))
  | ('+' : Char) :: rest => (natFromDigits rest).map (fun n => (n : Int))
  | l => (natFromDigits l).map (fun n => (n : Int))

/-- `handle_user_input`: consume pending free text according to the flag
checks, in source order (`awaiting_broadcast`, then `awaiting_admin_id`,
then `creating_ticket`; `removing_admin` is never consulted).  The
admin-grant branch parses the text as an integer id and calls
`add_admin(new_admin, user_id)` (default level 1) with no check on the
caller. -/
def handle_user_input (db : DB) (ud : UserData) (uid : Int) (env : Env) (text : String) : Res :=
  if ud.awaiting_broadcast then
    ⟨db, { ud with awaiting_broadcast := false }, (process_broadcast db env text).out⟩
  else if ud.awaiting_admin_id then
    match int_of_text text with
    | some new_admin =>
        ⟨add_admin db new_admin uid 1, { ud with awaiting_admin_id := false },
          [Payload.adminPromoted new_admin]⟩
    | none => ⟨db, { ud with awaiting_admin_id := false }, [Payload.invalidId]⟩
  else if ud.creating_ticket then
    let r := create_ticket db uid ("دعم فني") text
    ⟨r.2, { ud with creating_ticket := false }, [Payload.ticketCreated r.1]⟩
  else ⟨db, ud, []⟩

/-- `if user_data and user_data['is_banned']`. -/
def banned_check (db : DB) (uid : Int) : Bool :=
  match get_user db uid with
  | some u => u.is_banned
  | none => false

/-- The `if/elif` routing chain of `handle_message`, in source order.  The
six wallet/settings menu labels are bound to handlers that are never
defined in the source (`deposit_start`, `withdraw_start`,
`show_transactions`, `change_language`, `notification_settings`,
`edit_profile`); reaching them raises `NameError`, modelled as
`internalError`.  After the chain the router tests the `awaiting_input`
key, which no handler ever sets. -/
def dispatch (db : DB) (ud : UserData) (uid : Int) (text : String) (env : Env) : Res :=
  if text = "👤 حسابي" then show_profile db ud uid
  else if text = "🛒 المتجر" then show_shop db ud
  else if text = "💰 المحفظة" then show_wallet db ud uid
  else if text = "🎮 الألعاب والترفيه" then show_games db ud
  else if text = "📢 الأخبار" then show_news db ud
  else if text = "🔗 الإحالات" then show_referral db ud uid
  else if text = "⚙️ الإعدادات" then show_settings db ud
  else if text = "📞 الدعم الفني" then show_support db ud
  else if text = "❓ المساعدة" then show_help db ud
  else if text = "🔐 لوحة تحكم الأدمن" then show_admin_panel db ud uid
  else if text = "🔙 العودة للقائمة الرئيسية" then back_to_main db ud
  else if text = "📊 الإحصائيات" then admin_stats db ud
  else if text = "👥 إدارة المستخدمين" then admin_users db ud
  else if text = "📢 إذاعة" then admin_broadcast_start db ud
  else if text = "⚙️ إعدادات البوت" then admin_settings db ud
  else if text = "🛍️ إدارة المنتجات" then admin_products db ud
  else if text = "🎫 التذاكر" then admin_tickets db ud
  else if text = "➕ إضافة أدمن" then admin_add_start db ud
  else if text = "➖ إزالة أدمن" then admin_remove_start db ud
  else if text = "🎮 منتجات رقمية" then show_category db ud ("digital")
  else if text = "👕 ملابس وأزياء" then show_category db ud ("clothing")
  else if text = "📚 كتب ومراجع" then show_category db ud ("books")
  else if text = "🎁 هدايا واكسسوارات" then show_category db ud ("gifts")
  else if text = "🎲 لعبة النرد" then play_dice db ud uid env
  else if text = "🎯 لعبة السهم" then play_dart db ud uid env
  else if text = "🎰 آلة الحظ" then play_slots db ud uid env
  else if text = "❓ تحدي المعرفة" then play_trivia db ud
  else if text = "🏆 المتصدرين" then show_leaderboard db ud
  else if text = "🎁 مكافآت يومية" then claim_daily db ud uid env
  else if text = "💳 شحن الرصيد" then ⟨db, ud, [Payload.internalError]⟩
  else if text = "💸 سحب الأموال" then ⟨db, ud, [Payload.internalError]⟩
  else if text = "📜 سجل العمليات" then ⟨db, ud, [Payload.internalError]⟩
  else if text = "🌐 تغيير اللغة" then ⟨db, ud, [Payload.internalError]⟩
  else if text = "🔔 إعدادات الإشعارات" then ⟨db, ud, [Payload.internalError]⟩
  else if text = "👤 تعديل الملف الشخصي" then ⟨db, ud, [Payload.internalError]⟩
  else if text = "📝 إنشاء تذكرة جديدة" then create_ticket_start db ud
  else if text = "📋 عرض تذاكري السابقة" then show_my_tickets db ud
  else if text = "❌ إلغاء" then cancel_operation db ud
  else if ud.awaiting_input then handle_user_input db ud uid env text
  else ⟨db, ud, [Payload.unrecognized]⟩

/-- `handle_message`, the router: update activity, then the ban check
(returning the single rejection payload if banned), then the dispatch
chain. -/
def handle_message (db0 : DB) (ud : UserData) (uid : Int) (text : String) (env : Env) : Res :=
  if banned_check (update_user_activity db0 uid env.now) uid then
    ⟨update_user_activity db0 uid env.now, ud, [Payload.banned]⟩
  else dispatch (update_user_activity db0 uid env.now) ud uid text env

/-! ### Derived notions and concrete stores used by the claims -/

/-- Number of input expectations simultaneously armed in a user's session
data (the flag the router actually consults, `awaiting_input`, is not an
expectation of its own and is not counted). -/
def activeExpectations (ud : UserData) : Nat :=
  (if ud.awaiting_broadcast then 1 else 0) + (if ud.awaiting_admin_id then 1 else 0) +
  (if ud.removing_admin then 1 else 0) + (if ud.creating_ticket then 1 else 0)

/-- Replay of a sequence of order creations against one product: each entry
is `(user id, requested quantity)`. -/
def runOrders (db : DB) (pid : Int) (ops : List (Int × Int)) : DB :=
  ops.foldl (fun d op => (create_order d op.1 pid op.2).2) db

/-- Left inverse of `natDecimal`: read a digit string back as a number. -/
def decVal (l : List Char) : Nat :=
  Nat.ofDigits 10 ((l.map (fun c => c.toNat - 48)).reverse)

/-- Environment with trivial randomness and all deliveries succeeding. -/
def env0 : Env := ⟨0, 0, 0, 0, 0, fun _ => true⟩

/-- Environment at clock tick 99. -/
def envC3 : Env := ⟨99, 0, 0, 0, 0, fun _ => true⟩

/-- Environment in which delivery to account 2 fails and the rest succeed. -/
def envC9 : Env := ⟨0, 0, 0, 0, 0, fun i => i != 2⟩

/-- Store with the single non-admin, non-banned user 42. -/
def dbC1 : DB := ⟨[⟨42, false, 0, 0, 0, 0⟩], [], [], [], [], []⟩

/-- Store with the single non-banned user 5 and no tickets. -/
def dbC2 : DB := ⟨[⟨5, false, 0, 0, 0, 0⟩], [], [], [], [], []⟩

/-- Store with the single banned user 7 (message count 5). -/
def dbC3 : DB := ⟨[⟨7, true, 0, 0, 5, 0⟩], [], [], [], [], []⟩

def uC4 : User := ⟨1, false, 30, 0, 0, 0⟩

/-- Store with the single user 1 holding balance 30. -/
def dbC4 : DB := ⟨[uC4], [], [], [], [], []⟩

def pC5 : Product := ⟨7, ("widget"), 4, 3, ("digital"), true⟩

/-- Store with the single product 7, price 4, stock 3. -/
def dbC5 : DB := ⟨[], [], [pC5], [], [], []⟩

/-- Order requests against product 7: quantities 2, then 10, then 1. -/
def opsC5 : List (Int × Int) := [(1, 2), (2, 10), (3, 1)]

def uC6 : User := ⟨1, false, 0, 0, 0, 0⟩

/-- Store with the single user 1 holding 0 points. -/
def dbC6 : DB := ⟨[uC6], [], [], [], [], []⟩

/-- Store where user 1 is an admin (level 3). -/
def dbC7 : DB := ⟨[⟨1, false, 0, 0, 0, 0⟩], [⟨1, 1, 3⟩], [], [], [], []⟩

/-- Store with the three users 1, 2, 3. -/
def dbC9 : DB := ⟨[⟨1, false, 0, 0, 0, 0⟩, ⟨2, false, 0, 0, 0, 0⟩, ⟨3, false, 0, 0, 0, 0⟩],
  [], [], [], [], []⟩

/-- Store with the two users 1 and 3. -/
def dbC9b : DB := ⟨[⟨1, false, 0, 0, 0, 0⟩, ⟨3, false, 0, 0, 0, 0⟩], [], [], [], [], []⟩

def uC10 : User := ⟨1, false, 30, 0, 0, 0⟩

/-- Store with the single user 1 holding balance 30. -/
def dbC10 : DB := ⟨[uC10], [], [], [], [], []⟩

/-- Store with no users at all. -/
def dbC10e : DB := ⟨[], [], [], [], [], []⟩

/-! ### Helper lemmas -/

/-- `find?` over a keyed in-place update: updating the rows whose key is `k`
and then looking `k` up is looking up first and then updating the row found,
provided the update preserves the key. -/
theorem find?_map_update {α : Type} (key : α → Int) (g : α → α)
    (hg : ∀ a, key (g a) = key a) (k : Int) :
    ∀ l : List α,
      (l.map (fun a => if key a = k then g a else a)).find? (fun a => key a == k)
        = (l.find? (fun a => key a == k)).map g := by
  intro l
  induction l with
  | nil => rfl
  | cons a l ih =>
    by_cases h : key a = k
    · simp only [List.map_cons, if_pos h]
      rw [List.find?_cons_of_pos _ (by simp [hg a, h]), List.find?_cons_of_pos _ (by simp [h])]
      rfl
    · simp only [List.map_cons, if_neg h]
      rw [List.find?_cons_of_neg _ (by simp [h]), List.find?_cons_of_neg _ (by simp [h]), ih]

theorem get_user_updateUser (db : DB) (uid : Int) (g : User → User)
    (hg : ∀ u, (g u).user_id = u.user_id) :
    get_user (updateUser db uid g) uid = (get_user db uid).map g :=
  find?_map_update User.user_id g hg uid db.users

theorem get_product_updateProduct (db : DB) (pid : Int) (g : Product → Product)
    (hg : ∀ p, (g p).product_id = p.product_id) :
    get_product (updateProduct db pid g) pid = (get_product db pid).map g :=
  find?_map_update Product.product_id g hg pid db.products

/-- The activity update does not change anyone's ban flag. -/
theorem banned_check_activity (db : DB) (uid : Int) (now : Nat) :
    banned_check (update_user_activity db uid now) uid = banned_check db uid := by
  unfold banned_check update_user_activity
  rw [get_user_updateUser db uid
    (fun v => { v with last_activity := now, message_count := v.message_count + 1 }) (fun v => rfl)]
  cases get_user db uid <;> rfl

theorem get_user_activity (db : DB) (uid : Int) (now : Nat) (u : User)
    (hu : get_user db uid = some u) :
    get_user (update_user_activity db uid now) uid
      = some { u with last_activity := now, message_count := u.message_count + 1 } := by
  unfold update_user_activity
  rw [get_user_updateUser db uid
    (fun v => { v with last_activity := now, message_count := v.message_count + 1 }) (fun v => rfl), hu]
  rfl

theorem get_user_set_trans (db : DB) (t : List Transaction) (uid : Int) :
    get_user { db with transactions := t } uid = get_user db uid := rfl

theorem dispatch_add_admin (db : DB) (ud : UserData) (uid : Int) (env : Env) :
    dispatch db ud uid ("➕ إضافة أدمن") env = admin_add_start db ud := rfl

theorem dispatch_remove_admin (db : DB) (ud : UserData) (uid : Int) (env : Env) :
    dispatch db ud uid ("➖ إزالة أدمن") env = admin_remove_start db ud := rfl

/-! ### Claims -/

/-- C1.  The claim says every admin-only handler re-checks the caller's
admin status and only emits a permission-denied payload for non-admins.  In
the code only the panel-entry handler does; evaluated at the failing input:
non-admin user 42 obtains the full statistics from the admin-stats label,
arms the broadcast and add-admin prompts (never a permission-denied
payload), and the pending add-admin input routine grants admin 999 on
behalf of the non-admin caller. -/
theorem C1_admin_handlers_unguarded :
    is_admin dbC1 42 = false ∧
    (handle_message dbC1 UserData.empty 42 ("📊 الإحصائيات") env0).out
      = [Payload.adminStats 1 0 0] ∧
    (handle_message dbC1 UserData.empty 42 ("📢 إذاعة") env0).ud.awaiting_broadcast = true ∧
    (handle_message dbC1 UserData.empty 42 ("📢 إذاعة") env0).out = [Payload.broadcastPrompt] ∧
    (handle_message dbC1 UserData.empty 42 ("➕ إضافة أدمن") env0).ud.awaiting_admin_id = true ∧
    (handle_message dbC1 UserData.empty 42 ("➕ إضافة أدمن") env0).out = [Payload.addAdminPrompt] ∧
    (∀ p ∈ (handle_message dbC1 UserData.empty 42 ("📊 الإحصائيات") env0).out,
       p ≠ Payload.permissionDenied) ∧
    is_admin (handle_user_input dbC1 ⟨false, true, false, false, false⟩ 42 env0 ("999")).db 999
      = true := by
  decide

/-- C2.  The claim says a user in the ticket-body state who sends free text
gets a Ticket with that body and status `open`, and the state returns to
idle.  In the code the router's fallback tests the `awaiting_input` key,
which no handler ever sets, so the message falls through to the default
"unrecognized" reply: no ticket is created and the `creating_ticket` flag
stays armed.  The last two conjuncts show the consumption routine itself
would have created exactly that ticket had the router reached it. -/
theorem C2_ticket_body_never_consumed :
    (handle_message dbC2 ⟨false, false, false, true, false⟩ 5 ("my item did not arrive") env0).out
      = [Payload.unrecognized] ∧
    (handle_message dbC2 ⟨false, false, false, true, false⟩ 5 ("my item did not arrive") env0).db.tickets
      = [] ∧
    (handle_message dbC2 ⟨false, false, false, true, false⟩ 5 ("my item did not arrive") env0).ud
      = ⟨false, false, false, true, false⟩ ∧
    (handle_user_input dbC2 ⟨false, false, false, true, false⟩ 5 env0 ("my item did not arrive")).db.tickets
      = [⟨1, 5, ("دعم فني"), ("my item did not arrive"), ("open")⟩] ∧
    (handle_user_input dbC2 ⟨false, false, false, true, false⟩ 5 env0 ("my item did not arrive")).ud.creating_ticket
      = false := by
  decide

/-- C3 counterexample.  Banned user 7 (message count 5) sends a message at
clock tick 99: the router replies with the single rejection payload, but the
user's message count has been incremented to 6 and the last-activity
timestamp refreshed to 99 — the activity update precedes the ban check,
contradicting the claim's "no activity counters updated". -/
theorem C3_activity_updated_for_banned :
    (handle_message dbC3 UserData.empty 7 ("hello") envC3).out = [Payload.banned] ∧
    (handle_message dbC3 UserData.empty 7 ("hello") envC3).db.users
      = [⟨7, true, 0, 0, 6, 99⟩] := by
  decide

/-- C3 (amended).  For every inbound event from a banned account the router
returns the single rejection payload and stops — the session data and every
table other than `users` are untouched — but, contrary to the claim as
stated, the account's message count and last-activity timestamp ARE
updated, because the activity update runs before the ban check. -/
theorem C3_banned_rejection (db : DB) (ud : UserData) (uid : Int) (text : String) (env : Env)
    (h : banned_check db uid = true) :
    handle_message db ud uid text env
      = ⟨update_user_activity db uid env.now, ud, [Payload.banned]⟩ ∧
    (update_user_activity db uid env.now).tickets = db.tickets ∧
    (update_user_activity db uid env.now).orders = db.orders ∧
    (update_user_activity db uid env.now).admins = db.admins ∧
    (update_user_activity db uid env.now).transactions = db.transactions ∧
    (update_user_activity db uid env.now).products = db.products ∧
    (∀ u, get_user db uid = some u →
       get_user (update_user_activity db uid env.now) uid
         = some { u with last_activity := env.now, message_count := u.message_count + 1 }) := by
  have hb : banned_check (update_user_activity db uid env.now) uid = true := by
    rw [banned_check_activity]; exact h
  refine ⟨?_, rfl, rfl, rfl, rfl, rfl, fun u hu => get_user_activity db uid env.now u hu⟩
  unfold handle_message
  rw [hb]
  simp

/-- C3 witness: the amended statement evaluated at banned user 7. -/
theorem C3_banned_rejection_witness :
    banned_check dbC3 7 = true ∧
    (handle_message dbC3 UserData.empty 7 ("hello") envC3
       = ⟨update_user_activity dbC3 7 envC3.now, UserData.empty, [Payload.banned]⟩ ∧
     (update_user_activity dbC3 7 envC3.now).tickets = dbC3.tickets ∧
     (update_user_activity dbC3 7 envC3.now).orders = dbC3.orders ∧
     (update_user_activity dbC3 7 envC3.now).admins = dbC3.admins ∧
     (update_user_activity dbC3 7 envC3.now).transactions = dbC3.transactions ∧
     (update_user_activity dbC3 7 envC3.now).products = dbC3.products ∧
     (∀ u, get_user dbC3 7 = some u →
        get_user (update_user_activity dbC3 7 envC3.now) 7
          = some { u with last_activity := envC3.now, message_count := u.message_count + 1 })) :=
  ⟨by decide, C3_banned_rejection dbC3 UserData.empty 7 ("hello") envC3 (by decide)⟩

/-- C4.  For an existing account, `update_balance` computes
`new_balance = balance + amount`; if it is negative the operation returns
`False` with the store untouched (no balance change, no ledger row);
otherwise it returns `True`, writes the new balance, and appends exactly one
transaction row whose kind comes from the sign of the amount and whose
stored amount is the absolute value — all in the same transaction, nothing
else changed. -/
theorem C4_update_balance_spec (db : DB) (uid : Int) (amount : Int) (u : User)
    (hu : get_user db uid = some u) :
    update_balance db uid amount
      = (if u.balance + amount < 0 then (false, db)
         else (true,
           { updateUser db uid (fun v => { v with balance := u.balance + amount }) with
               transactions := db.transactions ++
                 [⟨uid, (if 0 < amount then ("credit") else ("debit")), |amount|, ("Balance update")⟩] })) ∧
    (0 ≤ u.balance + amount →
       get_user (update_balance db uid amount).2 uid = some { u with balance := u.balance + amount }) := by
  constructor
  · simp only [update_balance, hu]
    rfl
  · intro h
    have h' : ¬ u.balance + amount < 0 := not_lt.mpr h
    simp only [update_balance, hu, if_neg h']
    rw [get_user_set_trans,
      get_user_updateUser db uid (fun v => { v with balance := u.balance + amount }) (fun v => rfl),
      hu]
    rfl

/-- C4 witness: Scenario A — balance 30, debit of 50 is rejected with no
mutation (the first branch of the instantiated specification). -/
theorem C4_update_balance_witness :
    get_user dbC4 1 = some uC4 ∧
    (update_balance dbC4 1 (-50)
       = (if uC4.balance + (-50) < 0 then (false, dbC4)
          else (true,
            { updateUser dbC4 1 (fun v => { v with balance := uC4.balance + (-50) }) with
                transactions := dbC4.transactions ++
                  [⟨1, (if 0 < (-50 : Int) then ("credit") else ("debit")), |(-50 : Int)|, ("Balance update")⟩] })) ∧
     (0 ≤ uC4.balance + (-50) →
        get_user (update_balance dbC4 1 (-50)).2 1 = some { uC4 with balance := uC4.balance + (-50) })) :=
  ⟨by decide, C4_update_balance_spec dbC4 1 (-50) uC4 (by decide)⟩

/-- C6 counterexample.  `add_points` applies a negative delta without any
guard: user 1 with 0 points receives delta −5 and ends with −5 points —
the accumulation is not rejected and the points value goes negative,
contradicting the claim. -/
theorem C6_points_go_negative :
    get_user (add_points dbC6 1 (-5)) 1 = some ⟨1, false, 0, -5, 0, 0⟩ ∧
    ((-5 : Int) < 0) := by
  decide

/-- C6 (amended).  `add_points` is an unconditional accumulation: the delta
is always applied to the stored points (and nothing else in the store
changes), with no non-negativity check, so a negative delta can drive an
account's points below zero. -/
theorem C6_add_points_unconditional (db : DB) (uid : Int) (pts : Int) (u : User)
    (hu : get_user db uid = some u) :
    get_user (add_points db uid pts) uid = some { u with points := u.points + pts } ∧
    (add_points db uid pts).admins = db.admins ∧
    (add_points db uid pts).tickets = db.tickets ∧
    (add_points db uid pts).orders = db.orders ∧
    (add_points db uid pts).transactions = db.transactions ∧
    (add_points db uid pts).products = db.products := by
  refine ⟨?_, rfl, rfl, rfl, rfl, rfl⟩
  unfold add_points
  rw [get_user_updateUser db uid (fun v => { v with points := v.points + pts }) (fun v => rfl), hu]
  rfl

/-- C6 witness: the amended statement evaluated at user 1 with delta −5. -/
theorem C6_add_points_unconditional_witness :
    get_user dbC6 1 = some uC6 ∧
    (get_user (add_points dbC6 1 (-5)) 1 = some { uC6 with points := uC6.points + (-5) } ∧
     (add_points dbC6 1 (-5)).admins = dbC6.admins ∧
     (add_points dbC6 1 (-5)).tickets = dbC6.tickets ∧
     (add_points dbC6 1 (-5)).orders = dbC6.orders ∧
     (add_points dbC6 1 (-5)).transactions = dbC6.transactions ∧
     (add_points dbC6 1 (-5)).products = dbC6.products) :=
  ⟨by decide, C6_add_points_unconditional dbC6 1 (-5) uC6 (by decide)⟩

/-- C7 counterexample.  Admin user 1 triggers add-admin-start and then
remove-admin-start: after the second prompt both `awaiting_admin_id` and
`removing_admin` are armed — two session-state expectations are active at
once, contradicting the at-most-one claim. -/
theorem C7_two_expectations_active :
    2 ≤ activeExpectations
        (handle_message (handle_message dbC7 UserData.empty 1 ("➕ إضافة أدمن") env0).db
          (handle_message dbC7 UserData.empty 1 ("➕ إضافة أدمن") env0).ud
          1 ("➖ إزالة أدمن") env0).ud := by
  decide

/-- C7 (amended).  The start handlers each arm their own independent flag
and clear none of the others, so a second `AWAITING_*` prompt leaves both
pending expectations set simultaneously: for any non-banned caller,
add-admin-start followed by remove-admin-start ends with
`awaiting_admin_id` and `removing_admin` both true (at least two active
expectations). -/
theorem C7_second_prompt_keeps_first (db : DB) (ud : UserData) (uid : Int) (env env2 : Env)
    (h : banned_check db uid = false) :
    (handle_message (handle_message db ud uid ("➕ إضافة أدمن") env).db
        (handle_message db ud uid ("➕ إضافة أدمن") env).ud uid ("➖ إزالة أدمن") env2).ud
      = { ud with awaiting_admin_id := true, removing_admin := true } ∧
    2 ≤ activeExpectations
        (handle_message (handle_message db ud uid ("➕ إضافة أدمن") env).db
          (handle_message db ud uid ("➕ إضافة أدمن") env).ud uid ("➖ إزالة أدمن") env2).ud := by
  have e1 : handle_message db ud uid ("➕ إضافة أدمن") env
      = ⟨update_user_activity db uid env.now, { ud with awaiting_admin_id := true },
         [Payload.addAdminPrompt]⟩ := by
    unfold handle_message
    rw [banned_check_activity, h]
    simp [dispatch_add_admin, admin_add_start]
  have e2 : handle_message (update_user_activity db uid env.now)
        { ud with awaiting_admin_id := true } uid ("➖ إزالة أدمن") env2
      = ⟨update_user_activity (update_user_activity db uid env.now) uid env2.now,
         { ud with awaiting_admin_id := true, removing_admin := true },
         [Payload.removeAdminPrompt]⟩ := by
    unfold handle_message
    rw [banned_check_activity, banned_check_activity, h]
    simp [dispatch_remove_admin, admin_remove_start]
  have e3 : (handle_message db ud uid ("➕ إضافة أدمن") env).db
      = update_user_activity db uid env.now := by rw [e1]
  have e4 : (handle_message db ud uid ("➕ إضافة أدمن") env).ud
      = { ud with awaiting_admin_id := true } := by rw [e1]
  rw [e3, e4, e2]
  refine ⟨rfl, ?_⟩
  clear e1 e2 e3 e4 h
  show 2 ≤ activeExpectations { ud with awaiting_admin_id := true, removing_admin := true }
  rcases ud with ⟨b1, b2, b3, b4, b5⟩
  show 2 ≤ (if b1 = true then 1 else 0) + (if true = true then 1 else 0)
      + (if true = true then 1 else 0) + (if b4 = true then 1 else 0)
  cases b1 <;> cases b4 <;> decide

/-- C7 witness: the amended statement evaluated at admin user 1. -/
theorem C7_second_prompt_keeps_first_witness :
    banned_check dbC7 1 = false ∧
    ((handle_message (handle_message dbC7 UserData.empty 1 ("➕ إضافة أدمن") env0).db
        (handle_message dbC7 UserData.empty 1 ("➕ إضافة أدمن") env0).ud 1 ("➖ إزالة أدمن") env0).ud
       = { UserData.empty with awaiting_admin_id := true, removing_admin := true } ∧
     2 ≤ activeExpectations
        (handle_message (handle_message dbC7 UserData.empty 1 ("➕ إضافة أدمن") env0).db
          (handle_message dbC7 UserData.empty 1 ("➕ إضافة أدمن") env0).ud 1 ("➖ إزالة أدمن") env0).ud) :=
  ⟨by decide, C7_second_prompt_keeps_first dbC7 UserData.empty 1 env0 env0 (by decide)⟩

/-- C10.  `update_balance` returns the bare `(false, unchanged store)` both
for a user id absent from the users table and for an existing user whose
balance would go negative, so the boolean result cannot distinguish
NotFound from InsufficientBalance. -/
theorem C10_notfound_conflated (db db2 : DB) (uid uid2 : Int) (amount amount2 : Int) (u : User)
    (h1 : get_user db uid = none) (h2 : get_user db2 uid2 = some u)
    (h3 : u.balance + amount2 < 0) :
    update_balance db uid amount = (false, db) ∧
    update_balance db2 uid2 amount2 = (false, db2) ∧
    (update_balance db uid amount).1 = (update_balance db2 uid2 amount2).1 := by
  have e1 : update_balance db uid amount = (false, db) := by
    simp only [update_balance, h1]
  have e2 : update_balance db2 uid2 amount2 = (false, db2) := by
    simp only [update_balance, h2, if_pos h3]
  exact ⟨e1, e2, by rw [e1, e2]⟩

/-- C10 witness: unknown user 9 on an empty store versus user 1 (balance
30) debited by 50 — both yield `(false, unchanged store)`. -/
theorem C10_notfound_conflated_witness :
    get_user dbC10e 9 = none ∧ get_user dbC10 1 = some uC10 ∧
    uC10.balance + (-50) < 0 ∧
    (update_balance dbC10e 9 7 = (false, dbC10e) ∧
     update_balance dbC10 1 (-50) = (false, dbC10) ∧
     (update_balance dbC10e 9 7).1 = (update_balance dbC10 1 (-50)).1) :=
  ⟨by decide, by decide, by decide,
   C10_notfound_conflated dbC10e dbC10 9 1 7 (-50) uC10 (by decide) (by decide) (by decide)⟩

/-- Unrolling the broadcast loop: the attempt trace accumulates every user
id in order and the counter accumulates one per successful delivery. -/
theorem foldl_bstep (f : Int → Bool) :
    ∀ (l : List User) (acc : List Int × Nat),
      l.foldl (bstep f) acc
        = (acc.1 ++ l.map (fun u => u.user_id),
           acc.2 + (l.filter (fun u => f u.user_id)).length) := by
  intro l
  induction l with
  | nil => intro acc; simp
  | cons u l ih =>
    intro acc
    rw [List.foldl_cons, ih]
    cases h : f u.user_id
    · simp [bstep, h, List.filter_cons, Prod.ext_iff, List.append_assoc]
    · simp [bstep, h, List.filter_cons, Prod.ext_iff, List.append_assoc]
      omega

/-- C9 counterexample.  Broadcasting to the three accounts 1, 2, 3 with the
delivery to 2 failing attempts all three and delivers two — but the emitted
report is *identical* to that of a broadcast to only the two accounts 1 and
3 with no failures: the report carries the delivered count alone, so it does
not carry the number attempted, contradicting the claim that the report
shows both `attempted=3` and `delivered=2`. -/
theorem C9_report_lacks_attempted :
    (process_broadcast dbC9 envC9 ("hi")).attempted.length = 3 ∧
    (process_broadcast dbC9 envC9 ("hi")).sent = 2 ∧
    (process_broadcast dbC9b env0 ("hi")).attempted.length = 2 ∧
    (process_broadcast dbC9b env0 ("hi")).sent = 2 ∧
    (process_broadcast dbC9 envC9 ("hi")).out = (process_broadcast dbC9b env0 ("hi")).out := by
  decide

/-- C9 (amended).  For every broadcast run, delivery is attempted to each
account of the bounded page (up to 5000) sequentially in order, an
individual delivery failure is swallowed without aborting the run, and the
delivered count equals the number of successful deliveries; the resulting
report carries the delivered count only — the attempted count is not part
of the emitted report. -/
theorem C9_broadcast_spec (db : DB) (env : Env) (text : String) :
    (process_broadcast db env text).attempted
      = (get_all_users db 5000).map (fun u => u.user_id) ∧
    (process_broadcast db env text).sent
      = ((get_all_users db 5000).filter (fun u => env.deliver u.user_id)).length ∧
    (process_broadcast db env text).out
      = [Payload.broadcastStatus,
         Payload.broadcastDone
           (((get_all_users db 5000).filter (fun u => env.deliver u.user_id)).length)] := by
  simp only [process_broadcast]
  rw [foldl_bstep]
  refine ⟨by simp, by simp, by simp⟩

theorem get_product_set_orders (db : DB) (os : List Order) (pid : Int) :
    get_product { db with orders := os } pid = get_product db pid := rfl

/-- A missing product fails the order with no writes. -/
theorem create_order_missing (db : DB) (uid pid q : Int) (h : get_product db pid = none) :
    create_order db uid pid q = (-1, db) := by
  simp only [create_order, h]

/-- Insufficient stock fails the order with no writes. -/
theorem create_order_insufficient (db : DB) (uid pid q : Int) (p : Product)
    (hp : get_product db pid = some p) (hq : p.stock < q) :
    create_order db uid pid q = (-1, db) := by
  simp only [create_order, hp, if_pos hq]

/-- A sufficient-stock order appends one order row (price snapshot taken
now) and decrements the product's stock. -/
theorem create_order_success (db : DB) (uid pid q : Int) (p : Product)
    (hp : get_product db pid = some p) (hq : ¬ p.stock < q) :
    create_order db uid pid q
      = ((db.orders.length : Int) + 1,
         updateProduct
           { db with orders := db.orders ++
               [⟨(db.orders.length : Int) + 1, uid, pid, q, p.price * q, ("pending")⟩] }
           pid (fun r => { r with stock := r.stock - q })) := by
  simp only [create_order, hp, if_neg hq]

/-- Invariant of the order-replay: the product keeps its price, its stock
stays non-negative, the order table only grows by rows for this product
whose `total_price` is the (constant) price times the quantity, and the
final stock plus the sum of the appended quantities equals the initial
stock. -/
theorem runOrders_spec (pid : Int) :
    ∀ (ops : List (Int × Int)) (db : DB) (p : Product),
      get_product db pid = some p → 0 ≤ p.stock →
      ∃ (p2 : Product) (tail : List Order),
        get_product (runOrders db pid ops) pid = some p2 ∧
        0 ≤ p2.stock ∧ p2.price = p.price ∧
        (runOrders db pid ops).orders = db.orders ++ tail ∧
        p2.stock + (tail.map (fun o => o.quantity)).sum = p.stock ∧
        (∀ o ∈ tail, o.product_id = pid ∧ o.total_price = p.price * o.quantity) := by
  intro ops
  induction ops with
  | nil =>
    intro db p hp hs
    exact ⟨p, [], hp, hs, rfl, by simp [runOrders], by simp, by simp⟩
  | cons op ops ih =>
    intro db p hp hs
    have hrun : runOrders db pid (op :: ops)
        = runOrders (create_order db op.1 pid op.2).2 pid ops := rfl
    rw [hrun]
    by_cases hq : p.stock < op.2
    · rw [create_order_insufficient db op.1 pid op.2 p hp hq]
      exact ih db p hp hs
    · rw [create_order_success db op.1 pid op.2 p hp hq]
      have hp2 : get_product
          (updateProduct
            { db with orders := db.orders ++
                [⟨(db.orders.length : Int) + 1, op.1, pid, op.2, p.price * op.2, ("pending")⟩] }
            pid (fun r => { r with stock := r.stock - op.2 })) pid
          = some { p with stock := p.stock - op.2 } := by
        rw [get_product_updateProduct _ pid (fun r => { r with stock := r.stock - op.2 })
          (fun r => rfl), get_product_set_orders, hp]
        rfl
      have hs2 : (0 : Int) ≤ p.stock - op.2 := by omega
      obtain ⟨p2, tail, h1, h2, h3, h4, h5, h6⟩ :=
        ih (updateProduct
              { db with orders := db.orders ++
                  [⟨(db.orders.length : Int) + 1, op.1, pid, op.2, p.price * op.2, ("pending")⟩] }
              pid (fun r => { r with stock := r.stock - op.2 }))
          { p with stock := p.stock - op.2 } hp2 hs2

      refine ⟨p2, ⟨(db.orders.length : Int) + 1, op.1, pid, op.2, p.price * op.2, ("pending")⟩ :: tail,
        h1, h2, h3, ?_, ?_, ?_⟩
      · rw [h4]
        show (db.orders ++ [⟨(db.orders.length : Int) + 1, op.1, pid, op.2, p.price * op.2, ("pending")⟩]) ++ tail
          = db.orders ++ ⟨(db.orders.length : Int) + 1, op.1, pid, op.2, p.price * op.2, ("pending")⟩ :: tail
        simp
      · rw [List.map_cons, List.sum_cons]
        have h5' : p2.stock + (tail.map (fun o => o.quantity)).sum = p.stock - op.2 := h5
        show p2.stock + (op.2 + (tail.map (fun o => o.quantity)).sum) = p.stock
        omega
      · intro o ho
        rcases List.mem_cons.mp ho with h | h
        · subst h
          exact ⟨rfl, rfl⟩
        · exact h6 o h

/-- C5.  Replaying any sequence of order creations against one product:
(i) the product's stock is non-negative after every prefix of the sequence;
(ii) the appended (successful) orders carry a total quantity of at most the
initial stock, reference this product, and record
`total_price = price * quantity` with the price captured at creation;
(iii) a creation against a missing product writes nothing; and
(iv) a creation with `stock < quantity` writes nothing. -/
theorem C5_stock_never_negative (db : DB) (pid : Int) (p : Product) (ops : List (Int × Int))
    (hp : get_product db pid = some p) (hs : 0 ≤ p.stock) :
    (∀ pre suf, ops = pre ++ suf →
       ∀ p2, get_product (runOrders db pid pre) pid = some p2 → 0 ≤ p2.stock) ∧
    (∃ tail, (runOrders db pid ops).orders = db.orders ++ tail ∧
       (tail.map (fun o => o.quantity)).sum ≤ p.stock ∧
       (∀ o ∈ tail, o.product_id = pid ∧ o.total_price = p.price * o.quantity)) ∧
    (∀ (d : DB) (uid q : Int), get_product d pid = none → create_order d uid pid q = (-1, d)) ∧
    (∀ (d : DB) (uid q : Int) (p2 : Product), get_product d pid = some p2 → p2.stock < q →
       create_order d uid pid q = (-1, d)) := by
  refine ⟨?_, ?_, fun d uid q h => create_order_missing d uid pid q h,
    fun d uid q p2 h hq => create_order_insufficient d uid pid q p2 h hq⟩
  · intro pre suf hsplit p2 hp2
    obtain ⟨p3, tail, h1, h2, _, _, _, _⟩ := runOrders_spec pid pre db p hp hs
    rw [h1] at hp2
    injection hp2 with e
    rw [← e]
    exact h2
  · obtain ⟨p3, tail, h1, h2, h3, h4, h5, h6⟩ := runOrders_spec pid ops db p hp hs
    exact ⟨tail, h4, by omega, h6⟩

/-- C5 witness: product 7 (price 4, stock 3) under the request sequence
quantities 2, 10, 1 — the middle request fails, the others succeed. -/
theorem C5_stock_never_negative_witness :
    get_product dbC5 7 = some pC5 ∧ (0 : Int) ≤ pC5.stock ∧
    ((∀ pre suf, opsC5 = pre ++ suf →
        ∀ p2, get_product (runOrders dbC5 7 pre) 7 = some p2 → 0 ≤ p2.stock) ∧
     (∃ tail, (runOrders dbC5 7 opsC5).orders = dbC5.orders ++ tail ∧
        (tail.map (fun o => o.quantity)).sum ≤ pC5.stock ∧
        (∀ o ∈ tail, o.product_id = 7 ∧ o.total_price = pC5.price * o.quantity)) ∧
     (∀ (d : DB) (uid q : Int), get_product d 7 = none → create_order d uid 7 q = (-1, d)) ∧
     (∀ (d : DB) (uid q : Int) (p2 : Product), get_product d 7 = some p2 → p2.stock < q →
        create_order d uid 7 q = (-1, d))) :=
  ⟨by decide, by decide, C5_stock_never_negative dbC5 7 pC5 opsC5 (by decide) (by decide)⟩

theorem decimalDigitChar_toNat (d : Nat) (hd : d < 10) : (decimalDigitChar d).toNat = 48 + d := by
  interval_cases d <;> decide

/-- `decVal` reads the decimal rendering back: the rendering is lossless. -/
theorem decVal_natDecimal (n : Nat) : decVal (natDecimal n) = n := by
  by_cases h : n = 0
  · subst h; decide
  · unfold natDecimal decVal
    rw [if_neg h, List.map_reverse, List.reverse_reverse, List.map_map]
    have he : (Nat.digits 10 n).map ((fun c => c.toNat - 48) ∘ decimalDigitChar)
        = (Nat.digits 10 n).map id := by
      apply List.map_congr_left
      intro d hd
      have hlt : d < 10 := Nat.digits_lt_base (by norm_num) hd
      show (decimalDigitChar d).toNat - 48 = id d
      rw [decimalDigitChar_toNat d hlt]
      simp
    rw [he, List.map_id, Nat.ofDigits_digits]

theorem natDecimal_inj {a b : Nat} (h : natDecimal a = natDecimal b) : a = b := by
  have h2 := congrArg decVal h
  rwa [decVal_natDecimal, decVal_natDecimal] at h2

/-- Every character of a decimal rendering is a digit (code point ≥ 48), in
particular never the minus sign. -/
theorem mem_natDecimal_ge (n : Nat) (c : Char) (hc : c ∈ natDecimal n) : 48 ≤ c.toNat := by
  unfold natDecimal at hc
  by_cases h : n = 0
  · rw [if_pos h] at hc
    simp at hc
    subst hc
    decide
  · rw [if_neg h, List.mem_reverse] at hc
    obtain ⟨d, hd, rfl⟩ := List.mem_map.mp hc
    have hlt : d < 10 := Nat.digits_lt_base (by norm_num) hd
    rw [decimalDigitChar_toNat d hlt]
    omega

theorem intDecimal_inj {a b : Int} (h : intDecimal a = intDecimal b) : a = b := by
  unfold intDecimal at h
  by_cases ha : a < 0 <;> by_cases hb : b < 0
  · rw [if_pos ha, if_pos hb] at h
    injection h with h1 h2
    have e := natDecimal_inj h2
    omega
  · rw [if_pos ha, if_neg hb] at h
    exfalso
    have hm : ('-' : Char) ∈ natDecimal b.natAbs := by
      rw [← h]; exact List.mem_cons_self _ _
    have h48 := mem_natDecimal_ge b.natAbs ('-' : Char) hm
    have h45 : ('-' : Char).toNat = 45 := by decide
    omega
  · rw [if_neg ha, if_pos hb] at h
    exfalso
    have hm : ('-' : Char) ∈ natDecimal a.natAbs := by
      rw [h]; exact List.mem_cons_self _ _
    have h48 := mem_natDecimal_ge a.natAbs ('-' : Char) hm
    have h45 : ('-' : Char).toNat = 45 := by decide
    omega
  · rw [if_neg ha, if_neg hb] at h
    have e := natDecimal_inj h
    omega

/-- C8.  Referral codes for pairwise-distinct account ids are pairwise
distinct for *every* choice of the fixed-length random suffixes: the code is
the fixed prefix, the decimal id, then exactly six suffix characters, and
equal codes force equal suffix-free parts (equal tail lengths), hence equal
decimal renderings, hence equal ids. -/
theorem C8_referral_codes_distinct (ids : List Int) (suffix : Int → List Char)
    (hlen : ∀ i ∈ ids, (suffix i).length = 6)
    (hids : ids.Pairwise (fun a b => a ≠ b)) :
    (ids.map (fun i => generate_referral_code i (suffix i))).Pairwise (fun a b => a ≠ b) := by
  rw [List.pairwise_map]
  refine List.Pairwise.imp_of_mem ?_ hids
  intro a b ha hb hab
  intro heq
  apply hab
  unfold generate_referral_code at heq
  have hl : (suffix a).length = (suffix b).length := by rw [hlen a ha, hlen b hb]
  have h2 := (List.append_inj' heq hl).1
  exact intDecimal_inj (List.append_cancel_left h2)

/-- C8 witness: ids 1, 12, 123 with the same suffix everywhere still give
three pairwise-distinct codes. -/
theorem C8_referral_codes_distinct_witness :
    (∀ i ∈ [(1 : Int), 12, 123], ((fun _ : Int => ("ABC123").data) i).length = 6) ∧
    ([(1 : Int), 12, 123].Pairwise (fun a b => a ≠ b)) ∧
    (([(1 : Int), 12, 123].map
        (fun i => generate_referral_code i ((fun _ : Int => ("ABC123").data) i))).Pairwise
      (fun a b => a ≠ b)) :=
  ⟨by decide, by decide,
   C8_referral_codes_distinct [(1 : Int), 12, 123] (fun _ => ("ABC123").data)
     (by decide) (by decide)⟩

end TgBot
